import Mathlib

/-!
Verification development for the Widget multi-tenant conversational support
backend.  The definitions below are shallow embeddings of the JavaScript
source files (`src/server/...`); each definition's doc comment names the
source function it embeds.  Theorems about the claims follow the definitions.
-/

namespace Widget

/-! ### A small regular-expression engine

The handover detection service tests messages against JavaScript regexes
built from literal characters, alternation, optional groups, `+`, and `.*`
(no character classes, no anchors, no backreferences).  We embed exactly
those constructs and decide unanchored `RegExp.test` via Brzozowski
derivatives.  All the source patterns carry the `i` flag and are written in
lower case; the service lowercases the message before testing, so matching
lowercased input against the literal lowercase patterns is faithful. -/

inductive RE where
  | nul : RE
  | eps : RE
  | chr : Char → RE
  | anych : RE
  | alt : RE → RE → RE
  | cat : RE → RE → RE
  | star : RE → RE
deriving DecidableEq

/-- Does the regex accept the empty string? -/
def RE.nullable : RE → Bool
  | .nul => false
  | .eps => true
  | .chr _ => false
  | .anych => false
  | .alt a b => a.nullable || b.nullable
  | .cat a b => a.nullable && b.nullable
  | .star _ => true

/-- Brzozowski derivative.  `anych` models the JavaScript dot, which matches
every character except a newline. -/
def RE.deriv : RE → Char → RE
  | .nul, _ => .nul
  | .eps, _ => .nul
  | .chr c, d => if c = d then .eps else .nul
  | .anych, d => if d = '\n' then .nul else .eps
  | .alt a b, d => .alt (a.deriv d) (b.deriv d)
  | .cat a b, d =>
      if a.nullable then .alt (.cat (a.deriv d) b) (b.deriv d)
      else .cat (a.deriv d) b
  | .star a, d => .cat (a.deriv d) (.star a)

/-- Full-string matching by iterated derivatives. -/
def RE.matchList (r : RE) : List Char → Bool
  | [] => r.nullable
  | c :: cs => (r.deriv c).matchList cs

/-- `.*` -/
def dotStar : RE := .star .anych

/-- JavaScript `RegExp.test`: the pattern matches some substring. -/
def rtest (r : RE) (s : String) : Bool :=
  RE.matchList (.cat dotStar (.cat r dotStar)) s.toList

/-- Literal string pattern. -/
def rstr (s : String) : RE := s.toList.foldr (fun c r => .cat (.chr c) r) .eps

/-- n-ary alternation `(a|b|...)`. -/
def ralt : List RE → RE
  | [] => .nul
  | [r] => r
  | r :: rs => .alt r (ralt rs)

/-- Alternation of literal strings. -/
def raltS (l : List String) : RE := ralt (l.map rstr)

/-- `r?` -/
def ropt (r : RE) : RE := .alt .eps r

/-- `r+` -/
def rplus (r : RE) : RE := .cat r (.star r)

/-- Concatenation of a pattern list. -/
def rcat (l : List RE) : RE := l.foldr .cat .eps

/-- The apostrophe character, used by several source patterns. -/
def aposC : Char := Char.ofNat 39

/-- `(an? )` -/
def reAnSp : RE := rcat [.chr 'a', ropt (.chr 'n'), .chr ' ']

/-! ### Handover detection service
(`src/server/services/handoverDetectionService.js`) -/

/-- `IMMEDIATE_HANDOVER_PATTERNS` transcribed regex by regex. -/
def IMMEDIATE_HANDOVER_PATTERNS : List RE :=
  [ rcat [rstr "speak ", raltS ["to", "with"], .chr ' ', ropt reAnSp,
      ropt (raltS ["real ", "actual ", "live "]),
      raltS ["agent", "human", "person", "support", "someone", "representative"]],
    rcat [rstr "talk ", raltS ["to", "with"], .chr ' ', ropt reAnSp,
      ropt (raltS ["real ", "actual ", "live "]),
      raltS ["agent", "human", "person", "support", "someone", "representative"]],
    rcat [rstr "get ", ropt (rstr "me "), ropt reAnSp,
      ropt (raltS ["real ", "actual ", "live "]),
      raltS ["agent", "human", "person", "support", "someone", "representative"]],
    rcat [rstr "connect ", ropt (rstr "me "), raltS ["to", "with"], .chr ' ',
      ropt reAnSp, raltS ["agent", "human", "person", "support", "someone"]],
    rcat [rstr "transfer ", ropt (rstr "me "), raltS ["to", "with"], .chr ' ',
      ropt reAnSp, raltS ["agent", "human", "person", "support", "someone"]],
    rcat [rstr "i ", raltS ["want", "need", "would like"], .chr ' ',
      ropt (rstr "to "), raltS ["speak", "talk"], .chr ' ', raltS ["to", "with"],
      .chr ' ', ropt reAnSp, raltS ["agent", "human", "person"]],
    rcat [rstr "human ", raltS ["support", "help", "assistance"]],
    rcat [rstr "live ", raltS ["agent", "support", "chat", "person"]],
    rstr "real person",
    rcat [rstr "can i ", raltS ["speak", "talk"], .chr ' ', raltS ["to", "with"]],
    raltS ["manager", "supervisor"],
    raltS ["legal", "lawyer", "sue"],
    rstr "emergency",
    rcat [rstr "real ", raltS ["agent", "human", "person"]],
    rcat [rstr "actual ", raltS ["agent", "human", "person"]],
    rcat [rstr "no", rplus (.chr 'o'), dotStar, rstr "agent"],
    rcat [rstr "like ", ropt (raltS ["a ", "an "]),
      raltS ["human", "real", "actual", "live"], .chr ' ',
      raltS ["agent", "person", "support"]] ]

/-- `ASSISTED_HANDOVER_PATTERNS` transcribed regex by regex. -/
def ASSISTED_HANDOVER_PATTERNS : List RE :=
  [ rcat [rstr "billing ", raltS ["issue", "problem", "dispute"]],
    rstr "refund",
    rcat [rstr "account ", raltS ["access", "locked", "suspended", "disabled"]],
    rcat [rstr "payment ", raltS ["failed", "declined", "problem", "issue"]],
    rstr "complaint",
    rstr "escalate",
    rcat [rstr "login ", raltS ["issue", "problem", "error", "fail", "failing"]],
    rcat [rstr "can", ropt (.chr aposC), rstr "t ",
      raltS ["login", "log in", "access", "sign in"]],
    rcat [rstr "password ", raltS ["reset", "forgot", "expired", "not working"]],
    rcat [rstr "technical ", raltS ["issue", "problem", "error"]],
    rcat [rstr "not ", raltS ["working", "loading", "connecting"]],
    rcat [rstr "keep", ropt (.chr 's'), .chr ' ',
      raltS ["crashing", "failing", "timing out"]],
    rcat [rstr "data ", raltS ["missing", "lost", "wrong", "incorrect"]],
    rcat [rstr "charged ", raltS ["twice", "incorrectly", "wrong amount"]],
    rcat [rstr "subscription ", raltS ["cancel", "cancelled", "expired", "issue"]] ]

/-- The literal `doesn't`. -/
def reDoesNotT : RE := rcat [rstr "doesn", .chr aposC, .chr 't']

/-- The literal `isn't`. -/
def reIsNotT : RE := rcat [rstr "isn", .chr aposC, .chr 't']

/-- The literal `don't`. -/
def reDoNotT : RE := rcat [rstr "don", .chr aposC, .chr 't']

/-- `FRUSTRATION_PATTERNS` transcribed regex by regex. -/
def FRUSTRATION_PATTERNS : List RE :=
  [ rcat [ralt [rstr "not", reDoesNotT, reIsNotT, reDoNotT], .chr ' ',
      raltS ["help", "helping", "work", "working", "useful"]],
    raltS ["frustrated", "annoyed", "angry", "upset"],
    rcat [rstr "this ", ralt [rstr "is", reIsNotT], .chr ' ', ropt (rstr "not "),
      rstr "what i ", raltS ["asked", "needed", "wanted"]],
    rcat [raltS ["terrible", "awful", "horrible", "useless"], .chr ' ',
      raltS ["service", "support", "help"]],
    rcat [rstr "waste ", ropt (rstr "of "), rstr "time"],
    rstr "give up",
    rstr "forget it",
    rcat [raltS ["stupid", "dumb"], .chr ' ', raltS ["bot", "ai", "system"]],
    rstr "not understanding",
    rcat [rstr "same ", raltS ["thing", "answer", "response"], .chr ' ',
      raltS ["again", "over"]],
    rcat [rstr "told you ", raltS ["already", "before"]] ]

/-- `SIMILARITY_THRESHOLD = 0.7` -/
def SIMILARITY_THRESHOLD : ℚ := mkRat 7 10

/-- `THRESHOLDS.MAX_BACK_AND_FORTH` -/
def MAX_BACK_AND_FORTH : Nat := 6

/-- `THRESHOLDS.MAX_SIMILAR_QUESTIONS` -/
def MAX_SIMILAR_QUESTIONS : Nat := 3

/-- `THRESHOLDS.LOW_CONFIDENCE_SCORE = 0.35` -/
def LOW_CONFIDENCE_SCORE : ℚ := mkRat 7 20

/-- `THRESHOLDS.MIN_CONVERSATION_LENGTH` -/
def MIN_CONVERSATION_LENGTH : Nat := 4

/-- A message as the detector sees it (`sender_type`, `content`). -/
structure ChatMsg where
  sender_type : String
  content : String
deriving DecidableEq

/-- An AI response as `detectLowConfidence` sees it: only
`metadata.confidence` matters (absent or present rational value). -/
structure AiResp where
  confidence : Option ℚ
deriving DecidableEq

/-- The verdict record returned by each detector. -/
structure HandoverResult where
  shouldHandover : Bool
  immediate : Bool
  reason : String
  confidence : ℚ
  message : String
deriving DecidableEq

/-- Whitespace recognised by the JavaScript `\s` class and `trim`
(common subset). -/
def isWsChar (c : Char) : Bool :=
  c = ' ' || c = '\t' || c = '\n' || c = '\r' || c = '\x0b' || c = '\x0c'

/-- `toLowerCase`, written over the character list so that it evaluates
inside the kernel (the library `String.toLower` does not). -/
def toLowerCase (s : String) : String := String.mk (s.toList.map Char.toLower)

/-- `trim`: drop whitespace from both ends. -/
def jsTrim (s : String) : String :=
  String.mk (((s.toList.dropWhile isWsChar).reverse.dropWhile isWsChar).reverse)

/-- `message.toLowerCase().trim()` -/
def normMsg (s : String) : String := jsTrim (toLowerCase s)

/-- JavaScript truthiness of a string-valued entity: present and nonempty.
Entity maps are modelled as association lists of strings. -/
def truthy (es : List (String × String)) (k : String) : Bool :=
  match es.lookup k with
  | some v => v != ""
  | none => false

/-- `hasCustomerIdentity`: `!!(entities.email || entities.name || entities.phone)`. -/
def hasCustomerIdentity (es : List (String × String)) : Bool :=
  truthy es "email" || truthy es "name" || truthy es "phone"

/-- `detectImmediateHandover`.  The source loops over the pattern list and
returns the same record at the first match; an existence test is
equivalent. -/
def detectImmediateHandover (message : String) : Option HandoverResult :=
  let normalized := normMsg message
  if IMMEDIATE_HANDOVER_PATTERNS.any (fun p => rtest p normalized) then
    some { shouldHandover := true, immediate := true, reason := "explicit_request",
           confidence := 1, message := "User explicitly requested an agent" }
  else none

/-- `detectAssistedHandover`. -/
def detectAssistedHandover (message : String) : Option HandoverResult :=
  let normalized := normMsg message
  if ASSISTED_HANDOVER_PATTERNS.any (fun p => rtest p normalized) then
    some { shouldHandover := true, immediate := false, reason := "complex_query",
           confidence := mkRat 17 20,
           message := "Complex issue detected — collecting customer identity before escalating" }
  else none

/-- `detectFrustration`. -/
def detectFrustration (message : String) : Option HandoverResult :=
  let normalized := normMsg message
  if FRUSTRATION_PATTERNS.any (fun p => rtest p normalized) then
    some { shouldHandover := true, immediate := false, reason := "user_frustration",
           confidence := mkRat 9 10,
           message := "User appears frustrated — escalating after identity check" }
  else none

mutual
/-- `String.prototype.split(/\s+/)`: tokens between maximal whitespace runs,
with an empty token at either end when the string starts or ends with
whitespace.  `splitWsGo` is scanning a token (accumulated reversed). -/
def splitWsGo : List Char → List Char → List (List Char)
  | [], cur => [cur.reverse]
  | c :: cs, cur =>
      if isWsChar c then cur.reverse :: splitWsSkip cs else splitWsGo cs (c :: cur)

/-- `splitWsSkip` is inside a whitespace run. -/
def splitWsSkip : List Char → List (List Char)
  | [] => [[]]
  | c :: cs => if isWsChar c then splitWsSkip cs else splitWsGo cs [c]
end

/-- `s.split(/\s+/)` -/
def jsSplitWhitespace (s : String) : List String :=
  (splitWsGo s.toList []).map (fun l => String.mk l)

/-- The word set `new Set(text.toLowerCase().split(/\s+/))`, as a
duplicate-free list. -/
def wordSet (t : String) : List String := (jsSplitWhitespace (toLowerCase t)).dedup

/-- `calculateSimilarity`: Jaccard similarity of the word sets.  Rational
division by zero yields 0, matching the JavaScript `NaN >= 0.7` being
false when both word sets are empty. -/
def calculateSimilarity (t1 t2 : String) : ℚ :=
  let w1 := wordSet t1
  let w2 := wordSet t2
  let inter := w1.filter (fun x => w2.contains x)
  let union := (w1 ++ w2).dedup
  mkRat inter.length union.length

/-- Contents of the customer messages of a history, in order. -/
def customerContents (hist : List ChatMsg) : List String :=
  (hist.filter (fun m => m.sender_type = "customer")).map (fun m => m.content)

/-- The loop of `detectRepetitiveQuestions`: it walks indexes
`userMessages.length - 2` down to `max 0 (userMessages.length - 5)`, i.e.
over the (at most four) customer messages immediately before the last one,
counting those with similarity at least the threshold against the last. -/
def similarPriors (um : List String) (lastMsg : String) : Nat :=
  ((um.take (um.length - 1)).drop (um.length - 5)).countP
    (fun prior => decide (SIMILARITY_THRESHOLD ≤ calculateSimilarity lastMsg prior))

/-- `detectRepetitiveQuestions`. -/
def detectRepetitiveQuestions (hist : List ChatMsg) : Option HandoverResult :=
  if hist.length < MIN_CONVERSATION_LENGTH then none
  else
    let um := customerContents hist
    if um.length < 3 then none
    else
      match um.getLast? with
      | none => none
      | some lastMsg =>
          if MAX_SIMILAR_QUESTIONS - 1 ≤ similarPriors um lastMsg then
            some { shouldHandover := true, immediate := false,
                   reason := "repetitive_questions", confidence := mkRat 4 5,
                   message := "User repeating questions — may need human assistance" }
          else none

/-- `detectBackAndForth`. -/
def detectBackAndForth (hist : List ChatMsg) : Option HandoverResult :=
  if hist.length < MAX_BACK_AND_FORTH * 2 then none
  else
    let recent := hist.drop (hist.length - MAX_BACK_AND_FORTH * 2)
    let exchanges := recent.length / 2
    if MAX_BACK_AND_FORTH ≤ exchanges then
      let shortAi :=
        (recent.filter (fun m => m.sender_type = "ai" && m.content.length < 120)).length
      if 3 ≤ shortAi then
        some { shouldHandover := true, immediate := false,
               reason := "excessive_back_and_forth", confidence := mkRat 3 4,
               message := "Conversation unresolved after multiple exchanges" }
      else none
    else none

/-- `detectLowConfidence`: requires two consecutive responses whose
`metadata.confidence` is truthy (present and nonzero) and below the
threshold. -/
def detectLowConfidence (rs : List AiResp) : Option HandoverResult :=
  if rs.length < 2 then none
  else
    let recentTwo := rs.drop (rs.length - 2)
    let bothLow := recentTwo.all (fun r =>
      match r.confidence with
      | some c => decide (c ≠ 0) && decide (c < LOW_CONFIDENCE_SCORE)
      | none => false)
    if bothLow then
      some { shouldHandover := true, immediate := false,
             reason := "low_ai_confidence", confidence := mkRat 7 10,
             message := "AI confidence consistently low — human agent recommended" }
    else none

/-- The `options` argument of `analyzeHandoverNeed`. -/
structure HandoverOptions where
  collectedEntities : List (String × String)
  aiResponses : Option (List AiResp)
deriving DecidableEq

/-- `analyzeHandoverNeed`: the priority chain, each non-immediate verdict
promoted to `immediate` when identity is already collected. -/
def analyzeHandoverNeed (currentMessage : String) (conversationHistory : List ChatMsg)
    (options : HandoverOptions) : Option HandoverResult :=
  let collectedEntities := options.collectedEntities
  match detectImmediateHandover currentMessage with
  | some r => some r
  | none =>
  match detectAssistedHandover currentMessage with
  | some r =>
      some (if hasCustomerIdentity collectedEntities then { r with immediate := true } else r)
  | none =>
  match detectFrustration currentMessage with
  | some r =>
      some (if hasCustomerIdentity collectedEntities then { r with immediate := true } else r)
  | none =>
  match detectRepetitiveQuestions conversationHistory with
  | some r =>
      some (if hasCustomerIdentity collectedEntities then { r with immediate := true } else r)
  | none =>
  match detectBackAndForth conversationHistory with
  | some r =>
      some (if hasCustomerIdentity collectedEntities then { r with immediate := true } else r)
  | none =>
  match options.aiResponses with
  | some rs =>
      match detectLowConfidence rs with
      | some r =>
          some (if hasCustomerIdentity collectedEntities then { r with immediate := true } else r)
      | none => none
  | none => none

end Widget

namespace Widget

/-! ### Helper lemmas about the detector chain -/

/-- Any verdict produced by `detectBackAndForth` carries its fixed reason. -/
theorem detectBackAndForth_reason (hist : List ChatMsg) (r : HandoverResult)
    (h : detectBackAndForth hist = some r) : r.reason = "excessive_back_and_forth" := by
  unfold detectBackAndForth at h
  dsimp only at h
  split at h
  · exact absurd h (by simp)
  · split at h
    · split at h
      · cases h; rfl
      · exact absurd h (by simp)
    · exact absurd h (by simp)

/-- Any verdict produced by `detectLowConfidence` carries its fixed reason. -/
theorem detectLowConfidence_reason (rs : List AiResp) (r : HandoverResult)
    (h : detectLowConfidence rs = some r) : r.reason = "low_ai_confidence" := by
  unfold detectLowConfidence at h
  dsimp only at h
  split at h
  · exact absurd h (by simp)
  · split at h
    · cases h; rfl
    · exact absurd h (by simp)

/-- `detectRepetitiveQuestions` fires exactly under its three numeric
conditions, and then yields its fixed verdict record. -/
theorem detectRepetitiveQuestions_iff (hist : List ChatMsg) :
    (∃ r, detectRepetitiveQuestions hist = some r ∧
       r.shouldHandover = true ∧ r.reason = "repetitive_questions" ∧ r.confidence = mkRat 4 5)
    ↔ (MIN_CONVERSATION_LENGTH ≤ hist.length ∧
       3 ≤ (customerContents hist).length ∧
       ∃ lastMsg, (customerContents hist).getLast? = some lastMsg ∧
         MAX_SIMILAR_QUESTIONS - 1 ≤ similarPriors (customerContents hist) lastMsg) := by
  unfold detectRepetitiveQuestions
  dsimp only
  constructor
  · rintro ⟨r, h, -, -, -⟩
    split at h
    · exact absurd h (by simp)
    · rename_i h1
      split at h
      · exact absurd h (by simp)
      · rename_i h2
        split at h
        · exact absurd h (by simp)
        · rename_i lastMsg hlast
          split at h
          · rename_i h3
            exact ⟨Nat.le_of_not_lt h1, Nat.le_of_not_lt h2, lastMsg, hlast, h3⟩
          · exact absurd h (by simp)
  · rintro ⟨h1, h2, lastMsg, hlast, h3⟩
    rw [hlast]
    simp only [Nat.not_lt.mpr h1, Nat.not_lt.mpr h2, if_neg, ite_false]
    rw [if_pos h3]
    exact ⟨_, rfl, rfl, rfl, rfl⟩

end Widget

namespace Widget

/-- Identity promotion leaves every field except `immediate` unchanged. -/
theorem promote_fields (b : Bool) (r : HandoverResult) :
    ((if b = true then { r with immediate := true } else r).shouldHandover = r.shouldHandover)
    ∧ ((if b = true then { r with immediate := true } else r).reason = r.reason)
    ∧ ((if b = true then { r with immediate := true } else r).confidence = r.confidence) := by
  cases b <;> simp

/-- C4 (amended): with none of the higher-priority detectors matching,
`analyzeHandoverNeed` yields a `repetitive_questions` verdict (with
`shouldHandover = true` and confidence 0.8) exactly when the history has at
least `MIN_CONVERSATION_LENGTH` (4) messages, at least 3 customer messages,
and at least `MAX_SIMILAR_QUESTIONS - 1` (2) of the (at most 4) customer
messages immediately preceding the newest one have Jaccard similarity at
least 0.7 with the newest. -/
theorem repetitive_questions_rule (msg : String) (hist : List ChatMsg)
    (ents : List (String × String)) (ai : Option (List AiResp))
    (hI : detectImmediateHandover msg = none)
    (hA : detectAssistedHandover msg = none)
    (hF : detectFrustration msg = none) :
    (∃ r, analyzeHandoverNeed msg hist ⟨ents, ai⟩ = some r ∧
       r.shouldHandover = true ∧ r.reason = "repetitive_questions" ∧ r.confidence = mkRat 4 5)
    ↔ (MIN_CONVERSATION_LENGTH ≤ hist.length ∧
       3 ≤ (customerContents hist).length ∧
       ∃ lastMsg, (customerContents hist).getLast? = some lastMsg ∧
         MAX_SIMILAR_QUESTIONS - 1 ≤ similarPriors (customerContents hist) lastMsg) := by
  rw [← detectRepetitiveQuestions_iff]
  unfold analyzeHandoverNeed
  simp only [hI, hA, hF]
  cases hrep : detectRepetitiveQuestions hist with
  | some r =>
      simp only [hrep]
      constructor
      · rintro ⟨r', hr', hs, hre, hc⟩
        obtain ⟨p1, p2, p3⟩ := promote_fields (hasCustomerIdentity ents) r
        cases hr'
        exact ⟨r, rfl, by rw [← p1, hs], by rw [← p2, hre], by rw [← p3, hc]⟩
      · rintro ⟨r0, hr0, hs, hre, hc⟩
        obtain ⟨p1, p2, p3⟩ := promote_fields (hasCustomerIdentity ents) r
        have he : r0 = r := (Option.some.inj hr0).symm
        rw [he] at hs hre hc
        exact ⟨_, rfl, by rw [p1, hs], by rw [p2, hre], by rw [p3, hc]⟩
  | none =>
      simp only [hrep]
      constructor
      · rintro ⟨r', hr', hs, hre, hc⟩
        exfalso
        cases hb : detectBackAndForth hist with
        | some rb =>
            simp only [hb] at hr'
            obtain ⟨-, p2, -⟩ := promote_fields (hasCustomerIdentity ents) rb
            cases hr'
            rw [p2, detectBackAndForth_reason hist rb hb] at hre
            exact absurd hre (by decide)
        | none =>
            simp only [hb] at hr'
            cases ai with
            | none => exact absurd hr' (by simp)
            | some rs =>
                cases hl : detectLowConfidence rs with
                | some rl =>
                    simp only [hl] at hr'
                    obtain ⟨-, p2, -⟩ := promote_fields (hasCustomerIdentity ents) rl
                    cases hr'
                    rw [p2, detectLowConfidence_reason rs rl hl] at hre
                    exact absurd hre (by decide)
                | none =>
                    simp only [hl] at hr'
                    exact absurd hr' (by simp)
      · rintro ⟨r, hr, -⟩
        cases hr

end Widget

namespace Widget

/-- A four-message history whose newest customer message has exactly two
similar prior customer messages. -/
def repHist : List ChatMsg :=
  [ { sender_type := "customer", content := "what is my order status" },
    { sender_type := "customer", content := "what is my order status" },
    { sender_type := "ai", content := "reply" },
    { sender_type := "customer", content := "what is my order status" } ]

/-- C4 counterexample: on `repHist` the detector yields the
`repetitive_questions` verdict although only 2 (not 3) prior customer
messages are Jaccard-similar to the newest — indeed only 2 prior customer
messages exist at all — refuting the claimed threshold of
`MAX_SIMILAR_QUESTIONS` (3) similar messages. -/
theorem repetitive_questions_counterexample :
    analyzeHandoverNeed "what is my order status" repHist
        { collectedEntities := [], aiResponses := none } =
      some { shouldHandover := true, immediate := false,
             reason := "repetitive_questions", confidence := mkRat 4 5,
             message := "User repeating questions — may need human assistance" }
    ∧ (customerContents repHist).dropLast.countP
        (fun p => decide (SIMILARITY_THRESHOLD ≤
          calculateSimilarity "what is my order status" p)) = 2
    ∧ ¬ (MAX_SIMILAR_QUESTIONS ≤ 2) := by
  refine ⟨by decide, by decide, by decide⟩

/-- Witness for `repetitive_questions_rule` at `repHist`. -/
theorem repetitive_questions_rule_witness :
    (∃ r, analyzeHandoverNeed "what is my order status" repHist
        { collectedEntities := [], aiResponses := none } = some r ∧
       r.shouldHandover = true ∧ r.reason = "repetitive_questions" ∧ r.confidence = mkRat 4 5)
    ↔ (MIN_CONVERSATION_LENGTH ≤ repHist.length ∧
       3 ≤ (customerContents repHist).length ∧
       ∃ lastMsg, (customerContents repHist).getLast? = some lastMsg ∧
         MAX_SIMILAR_QUESTIONS - 1 ≤ similarPriors (customerContents repHist) lastMsg) :=
  repetitive_questions_rule "what is my order status" repHist [] none
    (by decide) (by decide) (by decide)

/-- C5: a message matching some assisted pattern and no immediate pattern
produces a `shouldHandover` verdict with confidence 0.85, whose `immediate`
flag is exactly `hasCustomerIdentity` of the collected entities (truthy
`email`, `name` or `phone`). -/
theorem assisted_handover_promotion (msg : String) (hist : List ChatMsg)
    (ents : List (String × String)) (ai : Option (List AiResp))
    (hA : ASSISTED_HANDOVER_PATTERNS.any (fun p => rtest p (normMsg msg)) = true)
    (hI : IMMEDIATE_HANDOVER_PATTERNS.any (fun p => rtest p (normMsg msg)) = false) :
    analyzeHandoverNeed msg hist { collectedEntities := ents, aiResponses := ai } =
      some { shouldHandover := true,
             immediate := hasCustomerIdentity ents,
             reason := "complex_query", confidence := mkRat 17 20,
             message := "Complex issue detected — collecting customer identity before escalating" } := by
  unfold analyzeHandoverNeed detectImmediateHandover detectAssistedHandover
  simp only [hA, hI]
  cases h : hasCustomerIdentity ents <;> simp [h]

/-- Witness for `assisted_handover_promotion` on a concrete payment-issue
message with a collected email. -/
theorem assisted_handover_promotion_witness :
    analyzeHandoverNeed "My payment failed"
        [] { collectedEntities := [("email", "jane@x.co")], aiResponses := none } =
      some { shouldHandover := true,
             immediate := hasCustomerIdentity [("email", "jane@x.co")],
             reason := "complex_query", confidence := mkRat 17 20,
             message := "Complex issue detected — collecting customer identity before escalating" } :=
  assisted_handover_promotion "My payment failed" [] [("email", "jane@x.co")] none
    (by decide) (by decide)

end Widget

namespace Widget

/-! ### A backtracking regex engine with one capture group

The identity extraction in the session service
(`extractAndStoreCustomerIdentity`, concatenated into
`src/server/services/queryService.js`) uses regexes with character classes,
`\b`, `{2,}` and a single capture group.  We embed those constructs with a
fuel-bounded continuation-passing matcher whose greedy backtracking order
follows the JavaScript engine. -/

inductive CRE where
  | eps : CRE
  | cls (ranges : List (Char × Char)) (chars : List Char) : CRE
  | cat : CRE → CRE → CRE
  | alt : CRE → CRE → CRE
  | star : CRE → CRE
  | wordB : CRE
  | grp : CRE → CRE
deriving DecidableEq

/-- JavaScript `\w`. -/
def isWordChar (c : Char) : Bool := c.isAlpha || c.isDigit || c = '_'

/-- Character-class membership; with the `i` flag both case foldings of the
character are tried, as the JavaScript engine canonicalises case. -/
def classMatch (ci : Bool) (ranges : List (Char × Char)) (chars : List Char) (c : Char) : Bool :=
  let hit := fun (d : Char) =>
    ranges.any (fun p => decide (p.1 ≤ d) && decide (d ≤ p.2)) || chars.contains d
  hit c || (ci && (hit c.toLower || hit c.toUpper))

/-- Fuel-bounded matcher.  `cmatch s ci fuel r i cap k` tries to match `r`
at position `i` of `s` with current capture `cap`, calling the continuation
`k` with the end position and capture on success; alternation and greedy
star backtrack in source order. -/
def cmatch (s : List Char) (ci : Bool) :
    Nat → CRE → Nat → Option (Nat × Nat) →
    (Nat → Option (Nat × Nat) → Option (Nat × Option (Nat × Nat))) →
    Option (Nat × Option (Nat × Nat))
  | 0, _, _, _, _ => none
  | fuel+1, r, i, cap, k =>
    match r with
    | .eps => k i cap
    | .cls ranges chars =>
        match s.get? i with
        | some c => if classMatch ci ranges chars c then k (i+1) cap else none
        | none => none
    | .cat a b => cmatch s ci fuel a i cap (fun j cap2 => cmatch s ci fuel b j cap2 k)
    | .alt a b =>
        match cmatch s ci fuel a i cap k with
        | some res => some res
        | none => cmatch s ci fuel b i cap k
    | .star a =>
        match cmatch s ci fuel a i cap
            (fun j cap2 => if i < j then cmatch s ci fuel (.star a) j cap2 k else none) with
        | some res => some res
        | none => k i cap
    | .wordB =>
        let prevW := match i with
          | 0 => false
          | j+1 => match s.get? j with
            | some c => isWordChar c
            | none => false
        let curW := match s.get? i with
          | some c => isWordChar c
          | none => false
        if prevW != curW then k i cap else none
    | .grp a => cmatch s ci fuel a i cap (fun j _ => k j (some (i, j)))

/-- Size of a pattern, for the fuel bound. -/
def creSize : CRE → Nat
  | .eps => 1
  | .cls _ _ => 1
  | .cat a b => creSize a + creSize b + 1
  | .alt a b => creSize a + creSize b + 1
  | .star a => creSize a + 1
  | .wordB => 1
  | .grp a => creSize a + 1

/-- Substring of a character list by positions. -/
def sliceStr (cs : List Char) (i j : Nat) : String := String.mk ((cs.drop i).take (j - i))

/-- JavaScript `message.match(re)`: try start positions `0, 1, ...` in
order (the leftmost-match rule) and return the whole match `[0]` and the
capture `[1]` of the first success, if any. -/
def jsMatch (r : CRE) (ci : Bool) (s : String) : Option (String × Option String) :=
  let cs := s.toList
  let fuel := (cs.length + 2) * (creSize r + 2) * 4
  match (List.range (cs.length + 1)).findSome?
      (fun i => match cmatch cs ci fuel r i none (fun j cap => some (j, cap)) with
        | some (j, cap) => some (i, j, cap)
        | none => none) with
  | some (i, j, cap) => some (sliceStr cs i j, cap.map (fun p => sliceStr cs p.1 p.2))
  | none => none

/-- A single literal character as a class. -/
def cchr (c : Char) : CRE := .cls [] [c]

/-- A literal string. -/
def cstr (s : String) : CRE := s.toList.foldr (fun c r => .cat (cchr c) r) .eps

/-- Concatenation of a list of patterns. -/
def ccat (l : List CRE) : CRE := l.foldr .cat .eps

/-- n-ary alternation. -/
def calt : List CRE → CRE
  | [] => .cls [] []
  | [r] => r
  | r :: rs => .alt r (calt rs)

/-- `r+` -/
def cplus (r : CRE) : CRE := .cat r (.star r)

/-- `\s` -/
def clsWs : CRE := .cls [] [' ', '\t', '\n', '\r', '\x0b', '\x0c']

/-- `[A-Z]` -/
def clsUpper : CRE := .cls [('A', 'Z')] []

/-- `[a-z]` -/
def clsLower : CRE := .cls [('a', 'z')] []

/-! ### Identity extraction
(the session-service part of `src/server/services/queryService.js`) -/

/-- `\b[A-Za-z0-9._%+-]+@[A-Za-z0-9.-]+\.[A-Z|a-z]{2,}\b` (the TLD class of
the source contains a literal `|`). -/
def emailRegex : CRE :=
  ccat [ .wordB,
         cplus (.cls [('A','Z'), ('a','z'), ('0','9')] ['.', '_', '%', '+', '-']),
         cchr '@',
         cplus (.cls [('A','Z'), ('a','z'), ('0','9')] ['.', '-']),
         cchr '.',
         .cls [('A','Z'), ('a','z')] ['|'],
         .cls [('A','Z'), ('a','z')] ['|'],
         .star (.cls [('A','Z'), ('a','z')] ['|']),
         .wordB ]

/-- `([A-Z][a-z]+\s+[A-Z][a-z]+)`, the captured full-name pattern. -/
def capName : CRE :=
  .grp (ccat [clsUpper, cplus clsLower, cplus clsWs, clsUpper, cplus clsLower])

/-- The four `namePatterns` of `extractAndStoreCustomerIdentity` (all with
the `i` flag). -/
def namePatterns : List CRE :=
  [ ccat [capName, cplus clsWs, cstr "is my name"],
    ccat [calt [cstr "my name is", cstr "name is"], cplus clsWs, capName],
    ccat [calt [ccat [cchr 'i', cchr aposC, cchr 'm'], cstr "i am", cstr "this is"],
      cplus clsWs, capName],
    ccat [capName, cplus clsWs, cstr "and my email"] ]

/-- Overwrite a key in an association list. -/
def setKV (es : List (String × String)) (k v : String) : List (String × String) :=
  (es.filter (fun p => p.1 ≠ k)) ++ [(k, v)]

/-- `extractAndStoreCustomerIdentity`, modelled on the collected-entities
map of the room's session context: extract an email by regex and a name by
the four patterns (taking `match[1]` of the first that matches), then merge
`customer_email` (lowercased, with `customer_verified` and `verified_at`)
and `customer_name` (trimmed) for keys not yet truthy.  `now` stands for
`new Date().toISOString()`.  Booleans are stored as their string images. -/
def extractAndStoreCustomerIdentity (es : List (String × String)) (message : String)
    (now : String) : List (String × String) :=
  if truthy es "customer_email" && truthy es "customer_name" then es
  else
    let emailMatch := (jsMatch emailRegex false message).map (fun p => p.1)
    let nameMatch := (namePatterns.filterMap
      (fun r => (jsMatch r true message).bind (fun p => p.2))).head?
    let es1 :=
      match emailMatch with
      | some e =>
          if truthy es "customer_email" then es
          else setKV (setKV (setKV es "customer_email" (toLowerCase e))
                 "customer_verified" "true") "verified_at" now
      | none => es
    match nameMatch with
    | some n =>
        if truthy es1 "customer_name" then es1
        else setKV es1 "customer_name" (jsTrim n)
    | none => es1

/-- `getCustomerIdentity`, on the same collected-entities map. -/
def getCustomerIdentity (es : List (String × String)) : String :=
  if truthy es "customer_email" && truthy es "customer_name" then
    match es.lookup "customer_name", es.lookup "customer_email" with
    | some n, some e => n ++ " (" ++ e ++ ")"
    | _, _ => "Unknown"
  else if truthy es "customer_email" then
    match es.lookup "customer_email" with
    | some e => e
    | none => "Unknown"
  else if truthy es "customer_name" then
    match es.lookup "customer_name" with
    | some n => n
    | none => "Unknown"
  else "Unknown"

end Widget

namespace Widget

/-- C9 counterexample: extracting from the message `email foo@bar.com`
stores the address under the key `customer_email`, not under `email` as the
claim states: the merged map has no `email` key. -/
theorem entity_roundtrip_counterexample :
    ((extractAndStoreCustomerIdentity [] "email foo@bar.com" "t0").lookup "email" = none)
    ∧ ((extractAndStoreCustomerIdentity [] "email foo@bar.com" "t0").lookup "customer_email"
        = some "foo@bar.com") := by
  exact ⟨by decide, by decide⟩

/-- C9 (amended): extracting from the message `email foo@bar.com` merges
`customer_email = "foo@bar.com"` into the collected entities, and a
subsequent `getCustomerIdentity` on the same context returns that email. -/
theorem entity_roundtrip_amended :
    ((extractAndStoreCustomerIdentity [] "email foo@bar.com" "t0").lookup "customer_email"
        = some "foo@bar.com")
    ∧ getCustomerIdentity (extractAndStoreCustomerIdentity [] "email foo@bar.com" "t0")
        = "foo@bar.com" := by
  exact ⟨by decide, by decide⟩

end Widget

namespace Widget

/-! ### Vector store model

A stored point, as written by `QdrantVectorStore.fromDocuments`: the Qdrant
payload nests the chunk metadata under the `metadata` key (the pipeline
source itself records this: `// Filter by metadata.tenant_id (correct path
in payload)`), so a filter key `tenant_id` addresses a top-level payload
field that does not exist, while `metadata.tenant_id` addresses the chunk
metadata. -/
structure QPoint where
  collection : String
  content : String
  metadata : List (String × String)
deriving DecidableEq

/-- Split a filter key at the dots. -/
def splitDotGo : List Char → List Char → List String
  | [], cur => [String.mk cur.reverse]
  | c :: cs, cur =>
      if c = '.' then String.mk cur.reverse :: splitDotGo cs [] else splitDotGo cs (c :: cur)

/-- Key paths of a Qdrant filter key. -/
def splitDot (k : String) : List String := splitDotGo k.toList []

/-- Resolve a filter key against a point's payload
`(content, metadata nested object)`. -/
def payloadGet (p : QPoint) (key : String) : Option String :=
  match splitDot key with
  | ["content"] => some p.content
  | ["metadata", sub] => p.metadata.lookup sub
  | _ => none

/-- One `must` condition of a Qdrant filter. -/
structure QCond where
  key : String
  value : String
deriving DecidableEq

/-- A point satisfies a condition when the key resolves to the value. -/
def condMatch (p : QPoint) (c : QCond) : Bool := payloadGet p c.key == some c.value

/-- A point satisfies a filter when it satisfies every `must` condition. -/
def filterMatch (p : QPoint) (must : List QCond) : Bool := must.all (condMatch p)

/-- `client.scroll(collection, {filter, limit})`: matching points of the
collection, at most `limit` of them. -/
def scroll (store : List QPoint) (coll : String) (must : List QCond) (limit : Nat) :
    List QPoint :=
  (store.filter (fun p => p.collection == coll && filterMatch p must)).take limit

/-- `qdrantService.countDocuments`: scroll with `limit: 1` and return
`result.points.length` (so 0 or 1); a missing collection scrolls to the
empty list, matching the 404 fallback of the source. -/
def countDocuments (store : List QPoint) (coll : String) (must : List QCond) : Nat :=
  (scroll store coll must 1).length

/-- `isDocumentIndexed` (`src/server/services/indexingService.js`): count
points matching top-level keys `tenant_id` and `document_id`; any error of
the store call (`checkFails`) is caught and reported as `false`.  The
`hasDocuments` branch is dead: the Qdrant service exposes no such
function. -/
def isDocumentIndexed (checkFails : Bool) (store : List QPoint)
    (tenantId documentId collectionName : String) : Bool :=
  if checkFails then false
  else
    0 < countDocuments store collectionName
        [{ key := "tenant_id", value := tenantId },
         { key := "document_id", value := documentId }]

/-! ### RAG retrieval (`src/server/core/rag/ragPipeline.js`, second copy,
whose `query` performs `similaritySearchWithScore` with no filter) -/

/-- The collection `query` searches: the `QDRANT_DEFAULT_COLLECTION`
override if set, else the tenant id prefixed with `tenant_` unless it
already starts with it. -/
def tenantCollection (overrideColl : Option String) (tenantId : String) : String :=
  match overrideColl with
  | some c => c
  | none =>
      if ("tenant_".toList).isPrefixOf tenantId.toList then tenantId
      else "tenant_" ++ tenantId

/-- `vectorStore.similaritySearch(WithScore)` without filter: top-k points
of the collection.  The ANN ranking is external; the model returns the
first `k` stored points of the collection, and every fact proved below
uses only that the result is drawn from the collection's points. -/
def similaritySearch (store : List QPoint) (coll : String) (k : Nat) : List QPoint :=
  (store.filter (fun p => p.collection == coll)).take k

/-- The source chunks returned by `query(tenantId, question, options)`:
retrieval from `tenantCollection` with no tenant filter (prompting and the
LLM call do not change which chunks are returned as `sources`). -/
def ragQuerySources (overrideColl : Option String) (store : List QPoint)
    (tenantId : String) (k : Nat) : List QPoint :=
  similaritySearch store (tenantCollection overrideColl tenantId) k

/-- `semanticSearch(tenantId, q, limit)`: collection named exactly by the
tenant id, filtered by `metadata.tenant_id == tenantId`. -/
def ragSemanticSearch (store : List QPoint) (tenantId : String) (limit : Nat) :
    List QPoint :=
  (store.filter (fun p => p.collection == tenantId
     && filterMatch p [{ key := "metadata.tenant_id", value := tenantId }])).take limit

end Widget

namespace Widget

/-- A chunk indexed by the tenant named `tenant_acme` (indexing writes the
collection named exactly by the tenant id, with the tenant id in the chunk
metadata). -/
def leakPoint : QPoint :=
  { collection := "tenant_acme", content := "secret document",
    metadata := [("tenant_id", "tenant_acme"), ("document_id", "d1")] }

/-- C1 counterexample: `tenant_acme` and `acme` are two distinct tenant
ids, yet `query("acme", q)` searches the collection `tenant_acme` (the
source normalises the tenant id by prefixing `tenant_`) with no tenant
filter, and returns the chunk whose payload `tenant_id` is `tenant_acme`. -/
theorem tenant_isolation_counterexample :
    ("acme" ≠ "tenant_acme")
    ∧ ragQuerySources none [leakPoint] "acme" 3 = [leakPoint]
    ∧ payloadGet leakPoint "metadata.tenant_id" = some "tenant_acme" := by
  refine ⟨by decide, by decide, by decide⟩

/-- C1 (amended): `query(t, q)` only returns chunks of the collection
`tenantCollection t`; under the indexing invariant that every stored
chunk's metadata `tenant_id` names its own collection, every returned
chunk carries `tenant_id = tenantCollection t` — which equals `t` itself
exactly when no override is set and `t` already starts with `tenant_`.
`semanticSearch(t, q)` filters on `metadata.tenant_id == t` and so never
returns a chunk of another tenant. -/
theorem tenant_isolation_amended (o : Option String) (store : List QPoint)
    (t : String) (k : Nat)
    (hinv : ∀ p ∈ store, p.metadata.lookup "tenant_id" = some p.collection) :
    (∀ p ∈ ragQuerySources o store t k,
       p.collection = tenantCollection o t
       ∧ p.metadata.lookup "tenant_id" = some (tenantCollection o t))
    ∧ (∀ p ∈ ragSemanticSearch store t k,
       p.metadata.lookup "tenant_id" = some t) := by
  constructor
  · intro p hp
    have hp2 : p ∈ store.filter (fun q => q.collection == tenantCollection o t) :=
      List.mem_of_mem_take hp
    have hmem := List.mem_filter.mp hp2
    have hcoll : p.collection = tenantCollection o t := by
      have := hmem.2
      simpa using this
    exact ⟨hcoll, by rw [hinv p hmem.1, hcoll]⟩
  · intro p hp
    have hp2 : p ∈ store.filter (fun q => q.collection == t
        && filterMatch q [{ key := "metadata.tenant_id", value := t }]) :=
      List.mem_of_mem_take hp
    have hmem := List.mem_filter.mp hp2
    have hflt := (Bool.and_eq_true _ _).mp hmem.2
    have : condMatch p { key := "metadata.tenant_id", value := t } = true := by
      have h2 := hflt.2
      unfold filterMatch at h2
      simpa using h2
    unfold condMatch payloadGet at this
    simpa using this

/-- Witness for `tenant_isolation_amended` on a one-point store whose
tenant id already carries the `tenant_` prefix. -/
theorem tenant_isolation_amended_witness :
    (∀ p ∈ ragQuerySources none [leakPoint] "tenant_acme" 3,
       p.collection = tenantCollection none "tenant_acme"
       ∧ p.metadata.lookup "tenant_id" = some (tenantCollection none "tenant_acme"))
    ∧ (∀ p ∈ ragSemanticSearch [leakPoint] "tenant_acme" 3,
       p.metadata.lookup "tenant_id" = some "tenant_acme") :=
  tenant_isolation_amended none [leakPoint] "tenant_acme" 3 (by decide)

end Widget

namespace Widget

/-! ### Indexing service (`src/server/services/indexingService.js`) -/

/-- Right-biased merge of two metadata objects: a JavaScript spread
`{...base, ...extra}` up to key order (lookups agree). -/
def mergeKV (base extra : List (String × String)) : List (String × String) :=
  (base.filter (fun p => (extra.lookup p.1).isNone)) ++ extra

/-- The basename of a path. -/
def basenameOf (p : String) : String :=
  String.mk ((p.toList.reverse.takeWhile (fun c => c ≠ '/')).reverse)

/-- Strip the `path.extname` extension: drop from the last dot, unless the
dot starts the basename. -/
def stripExt (s : String) : String :=
  let cs := s.toList
  match cs.reverse.dropWhile (fun c => c ≠ '.') with
  | [] => s
  | _ :: rest => if rest.isEmpty then s else String.mk rest.reverse

/-- `generateDocumentId`: `path.basename(filePath, path.extname(filePath))`. -/
def generateDocumentId (filePath : String) : String := stripExt (basenameOf filePath)

/-- The modality inference of `indexDocument`: an explicit `modality`
wins; otherwise the extension of `source` classifies image and audio;
otherwise `text`. -/
def inferModality (meta : List (String × String)) : String :=
  if truthy meta "modality" then
    match meta.lookup "modality" with
    | some m => m
    | none => "text"
  else if truthy meta "source" then
    match meta.lookup "source" with
    | some src =>
        let ext := toLowerCase ((splitDot src).getLastD "")
        if ext = "png" || ext = "jpg" || ext = "jpeg" then "image"
        else if ext = "mp3" || ext = "wav" then "audio"
        else "text"
    | none => "text"
  else "text"

/-- The environment of one `indexDocument` run: the outcome of the store
probe, the loaded and split chunks (`documentService.processDocument`
output before enrichment: page content and loader metadata), and the
overall outcomes of the embedding and storing stages.  A failing stage is
modelled as failing wholesale; only successful runs matter for the claims
proved below. -/
structure IndexEnv where
  checkFails : Bool
  rawChunks : Except String (List (String × List (String × String)))
  embedOk : Bool
  storeOk : Bool

/-- `50 + ((currentBatch / totalBatches) * 30)` as an exact rational. -/
def embeddingProgress (b B : Nat) : ℚ := mkRat (50 * B + 30 * b) B

/-- `20 + (docProgress.progress * 0.3)` as an exact rational; the document
service reports progress 0, 50, 100. -/
def mappedProcessing (p : Nat) : ℚ := mkRat (200 + 3 * p) 10

/-- The result record of `indexDocument`. -/
structure IndexResult where
  success : Bool
  skipped : Bool
  chunks : Nat
  documentId : String
  reason : Option String
deriving DecidableEq

/-- `indexDocument(filePath, tenantId, metadata, onProgress)`: the emitted
progress events (stage, progress) and either an error or the result
together with the store after the run.  `now` and `nowP` stand for the
`indexed_at` and `processed_at` timestamps.  Stages in order: `checking`
(5), skip on the idempotency probe, `preparing` (10), `processing` (20,
then the three mapped document-service events), `embedding` (one event per
batch of 50), `storing` (80), `complete` (100); any failure emits
`error` (0) and rethrows. -/
def indexDocument (env : IndexEnv) (store : List QPoint) (filePath tenantId : String)
    (metadata : List (String × String)) (now nowP : String) :
    List (String × ℚ) × Except String (IndexResult × List QPoint) :=
  let collectionName := tenantId
  let documentId :=
    match metadata.lookup "document_id" with
    | some d => if d != "" then d else generateDocumentId filePath
    | none => generateDocumentId filePath
  let ev0 : List (String × ℚ) := [("checking", 5)]
  if isDocumentIndexed env.checkFails store tenantId documentId collectionName then
    (ev0, .ok ({ success := true, skipped := true, chunks := 0,
                 documentId := documentId, reason := some "already_indexed" }, store))
  else
    let ev2 := ev0 ++ [("preparing", 10), ("processing", 20)]
    match env.rawChunks with
    | .error e => (ev2 ++ [("error", 0)], .error e)
    | .ok raw =>
      let docEvents : List (String × ℚ) :=
        [("processing", mappedProcessing 0), ("processing", mappedProcessing 50),
         ("processing", mappedProcessing 100)]
      let enriched := mergeKV
        [("tenant_id", tenantId), ("document_id", documentId), ("indexed_at", now)]
        metadata
      let n := raw.length
      let chunks := raw.enum.map (fun ic =>
        let m1 := mergeKV (mergeKV ic.2.2 enriched)
          [("chunk_index", Nat.repr ic.1), ("total_chunks", Nat.repr n),
           ("processed_at", nowP)]
        (ic.2.1, mergeKV m1 [("modality", inferModality m1)]))
      if n = 0 then (ev2 ++ docEvents ++ [("error", 0)], .error "No chunks generated from document")
      else
        let B := (n + 49) / 50
        if env.embedOk then
          let embedEvents := (List.range B).map
            (fun b => ("embedding", embeddingProgress (b + 1) B))
          let ev3 := ev2 ++ docEvents ++ embedEvents ++ [("storing", 80)]
          if env.storeOk then
            let newPoints := chunks.map (fun c =>
              { collection := collectionName, content := c.1, metadata := c.2 : QPoint })
            (ev3 ++ [("complete", 100)],
             .ok ({ success := true, skipped := false, chunks := n,
                    documentId := documentId, reason := none }, store ++ newPoints))
          else (ev3 ++ [("error", 0)], .error "store failed")
        else (ev2 ++ docEvents ++ [("error", 0)], .error "embedding failed")

end Widget

namespace Widget

/-- The environment of a plain successful one-chunk indexing run. -/
def c2Env : IndexEnv :=
  { checkFails := false, rawChunks := .ok [("hello world", [])],
    embedOk := true, storeOk := true }

/-- The first indexing run of the idempotency scenario. -/
def c2FirstRun := indexDocument c2Env [] "doc.txt" "t1" [] "now" "nowP"

/-- The store left by the first run. -/
def c2Store1 : List QPoint :=
  match c2FirstRun.2 with
  | .ok (_, st) => st
  | .error _ => []

/-- The second indexing run, on the store left by the first. -/
def c2SecondRun := indexDocument c2Env c2Store1 "doc.txt" "t1" [] "now" "nowP"

/-- C2 (code bug): after a first successful `indexDocument("doc.txt","t1")`
the store holds one chunk whose tenant and document ids live under the
nested `metadata` payload key, while the idempotency probe filters on the
top-level keys; so a second identical call does not skip and the chunk
count doubles, contrary to the claim (and to the spec's idempotency law). -/
theorem idempotent_indexing_code_bug :
    (match c2FirstRun.2 with | .ok (r, _) => r.skipped | .error _ => true) = false
    ∧ c2Store1.length = 1
    ∧ c2Store1.all (fun p => (payloadGet p "tenant_id").isNone) = true
    ∧ c2Store1.all (fun p => payloadGet p "metadata.tenant_id" == some "t1"
        && payloadGet p "metadata.document_id" == some "doc") = true
    ∧ (match c2SecondRun.2 with | .ok (r, _) => r.skipped | .error _ => true) = false
    ∧ (match c2SecondRun.2 with | .ok (_, st) => st.length | .error _ => 0) = 2 := by
  refine ⟨by decide, by decide, by decide, by decide, by decide, by decide⟩

/-- The top-level payload of a stored point has no `tenant_id` field. -/
theorem payloadGet_tenant_id (p : QPoint) : payloadGet p "tenant_id" = none := by
  have h : splitDot "tenant_id" = ["tenant_id"] := by decide
  unfold payloadGet
  rw [h]
  rfl

/-- The idempotency probe never reports an already-indexed document: with a
failing store call it returns `false` by the catch, and otherwise its
top-level `tenant_id` filter matches no stored point. -/
theorem isDocumentIndexed_false (cf : Bool) (store : List QPoint) (t d c : String) :
    isDocumentIndexed cf store t d c = false := by
  unfold isDocumentIndexed
  cases cf
  · have hfil : store.filter (fun p => p.collection == c
        && filterMatch p [{ key := "tenant_id", value := t },
                          { key := "document_id", value := d }]) = [] := by
      rw [List.filter_eq_nil_iff]
      intro p hp
      simp [filterMatch, condMatch, payloadGet_tenant_id p]
    simp [countDocuments, scroll, hfil]
  · simp

/-- C10: if the vector-store probe throws, `isDocumentIndexed` returns
`false` instead of propagating, and `indexDocument` proceeds to (re)index:
with the rest of the run healthy it succeeds without skipping and appends
the document's chunks to the store. -/
theorem idempotency_probe_never_fails (store : List QPoint) (fp t : String)
    (md : List (String × String)) (now nowP : String)
    (cs : List (String × List (String × String))) (hne : cs ≠ []) :
    isDocumentIndexed true store t "d" t = false
    ∧ ∃ r st, (indexDocument
          { checkFails := true, rawChunks := .ok cs, embedOk := true, storeOk := true }
          store fp t md now nowP).2 = .ok (r, st)
        ∧ r.skipped = false ∧ st.length = store.length + cs.length := by
  constructor
  · exact isDocumentIndexed_false true store t "d" t
  · unfold indexDocument
    simp only [isDocumentIndexed_false, Bool.false_eq_true, if_false]
    rw [if_neg (by simpa using hne)]
    refine ⟨_, _, rfl, rfl, ?_⟩
    simp

end Widget

namespace Widget

/-- Witness for `idempotency_probe_never_fails` on a one-chunk run against
an empty store. -/
theorem idempotency_probe_never_fails_witness :
    isDocumentIndexed true ([] : List QPoint) "t9" "d" "t9" = false
    ∧ ∃ r st, (indexDocument
          { checkFails := true, rawChunks := .ok [("x", [])],
            embedOk := true, storeOk := true }
          ([] : List QPoint) "f.txt" "t9" [] "n" "p").2 = .ok (r, st)
        ∧ r.skipped = false
        ∧ st.length = ([] : List QPoint).length + [("x", ([] : List (String × String)))].length :=
  idempotency_probe_never_fails [] "f.txt" "t9" [] "n" "p" [("x", [])] (by decide)

/-- Batch-progress values grow with the batch number. -/
theorem embeddingProgress_mono (B : Nat) (hB : 0 < B) (b1 b2 : Nat) (h : b1 ≤ b2) :
    embeddingProgress b1 B ≤ embeddingProgress b2 B := by
  unfold embeddingProgress
  rw [Rat.mkRat_eq_div, Rat.mkRat_eq_div]
  have hBq : (0 : ℚ) < (B : ℚ) := by exact_mod_cast hB
  rw [div_le_div_right hBq]
  have : (50 * B + 30 * b1 : ℤ) ≤ 50 * B + 30 * b2 := by omega
  exact_mod_cast this

/-- Batch-progress values stay at or above 50. -/
theorem embeddingProgress_ge_50 (B b : Nat) (hB : 0 < B) :
    (mkRat 500 10 : ℚ) ≤ embeddingProgress b B := by
  unfold embeddingProgress
  have h50 : (mkRat 500 10 : ℚ) = 50 := by decide
  rw [h50, Rat.mkRat_eq_div]
  have hBq : (0 : ℚ) < (B : ℚ) := by exact_mod_cast hB
  rw [le_div_iff hBq]
  have : (50 * B : ℤ) ≤ 50 * B + 30 * b := by omega
  calc (50 : ℚ) * B = ((50 * B : ℤ) : ℚ) := by push_cast; ring
    _ ≤ ((50 * B + 30 * b : ℤ) : ℚ) := by exact_mod_cast this
    _ = _ := by push_cast; ring

/-- The final batch reports exactly 80. -/
theorem embeddingProgress_last (B : Nat) (hB : 0 < B) :
    embeddingProgress B B = 80 := by
  unfold embeddingProgress
  rw [Rat.mkRat_eq_div]
  have hBq : (0 : ℚ) < (B : ℚ) := by exact_mod_cast hB
  have : ((50 * B + 30 * B : ℤ) : ℚ) = 80 * (B : ℚ) := by push_cast; ring
  rw [this, mul_div_assoc, div_self (ne_of_gt hBq), mul_one]

/-- The batch-progress values never exceed 80. -/
theorem embeddingProgress_le_80 (B b : Nat) (hB : 0 < B) (hb : b ≤ B) :
    embeddingProgress b B ≤ 80 := by
  have := embeddingProgress_mono B hB b B hb
  rw [embeddingProgress_last B hB] at this
  exact this

end Widget

namespace Widget

/-- The progress events of a successful non-skipped `indexDocument` run
with `B` embedding batches. -/
def successEvents (B : Nat) : List (String × ℚ) :=
  [("checking", 5), ("preparing", 10), ("processing", 20),
   ("processing", mappedProcessing 0), ("processing", mappedProcessing 50),
   ("processing", mappedProcessing 100)]
  ++ (List.range B).map (fun b => ("embedding", embeddingProgress (b + 1) B))
  ++ [("storing", 80), ("complete", 100)]

/-- A successful run emits exactly `successEvents` for its batch count. -/
theorem indexDocument_success_events (env : IndexEnv) (store : List QPoint)
    (fp t : String) (md : List (String × String)) (now nowP : String)
    (cs : List (String × List (String × String)))
    (hraw : env.rawChunks = .ok cs) (hne : cs ≠ [])
    (hemb : env.embedOk = true) (hsto : env.storeOk = true) :
    (indexDocument env store fp t md now nowP).1 = successEvents ((cs.length + 49) / 50) := by
  unfold indexDocument
  simp only [isDocumentIndexed_false, Bool.false_eq_true, if_false, hraw, hemb, hsto, if_true]
  rw [if_neg (by simpa using hne)]
  simp [successEvents, List.append_assoc]

/-- The monotonicity relation on progress events. -/
def progLe (a b : String × ℚ) : Prop := a.2 ≤ b.2

instance (a b : String × ℚ) : Decidable (progLe a b) :=
  inferInstanceAs (Decidable (a.2 ≤ b.2))

/-- Boolean check of weak increase, used to evaluate concrete event lists. -/
def chainLeB : List (String × ℚ) → Bool
  | a :: b :: t => decide (a.2 ≤ b.2) && chainLeB (b :: t)
  | _ => true

theorem chainLeB_chain' : ∀ l : List (String × ℚ), chainLeB l = true → List.Chain' progLe l
  | [], _ => List.chain'_nil
  | [a], _ => List.chain'_singleton a
  | a :: b :: t, h => by
      rw [List.chain'_cons]
      unfold chainLeB at h
      rw [Bool.and_eq_true] at h
      exact ⟨of_decide_eq_true h.1, chainLeB_chain' (b :: t) h.2⟩

/-- The event list of a successful run is weakly increasing. -/
theorem successEvents_chain (B : Nat) (hB : 1 ≤ B) :
    List.Chain' progLe (successEvents B) := by
  obtain ⟨m, rfl⟩ : ∃ m, B = m + 1 := ⟨B - 1, by omega⟩
  unfold successEvents
  rw [List.chain'_append]
  refine ⟨?_, chainLeB_chain' _ (by decide), ?_⟩
  · rw [List.chain'_append]
    refine ⟨chainLeB_chain' _ (by decide), ?_, ?_⟩
    · rw [List.chain'_map, List.chain'_range_succ]
      intro i hi
      exact embeddingProgress_mono (m + 1) (by omega) (i + 1) (i + 2) (by omega)
    · intro x hx y hy
      simp only [List.getLast?_cons_cons, List.getLast?_singleton, Option.mem_def,
        Option.some.injEq] at hx
      rw [List.range_succ_eq_map, List.map_cons, List.head?_cons] at hy
      simp only [Option.mem_def, Option.some.injEq] at hy
      rw [← hx, ← hy]
      show mappedProcessing 100 ≤ embeddingProgress 1 (m + 1)
      have h100 : mappedProcessing 100 = mkRat 500 10 := by decide
      rw [h100]
      exact embeddingProgress_ge_50 (m + 1) 1 (by omega)
  · intro x hx y hy
    rw [List.getLast?_append_of_ne_nil _ (by simp), List.range_succ, List.map_append,
      List.getLast?_append_of_ne_nil _ (by simp)] at hx
    simp only [List.map_cons, List.map_nil, List.getLast?_singleton, Option.mem_def,
      Option.some.injEq] at hx
    simp only [List.head?_cons, Option.mem_def, Option.some.injEq] at hy
    rw [← hx, ← hy]
    show embeddingProgress (m + 1) (m + 1) ≤ (80 : ℚ)
    rw [embeddingProgress_last (m + 1) (by omega)]

/-- The last event of a successful run is `complete` at 100. -/
theorem successEvents_last (B : Nat) :
    (successEvents B).getLast? = some ("complete", 100) := by
  unfold successEvents
  rw [List.getLast?_append_of_ne_nil _ (by simp)]
  rfl

/-- C8: in a successful (non-skipped) `indexDocument` run the progress
values reported to `onProgress` are weakly increasing over the stages
`checking, preparing, processing, embedding, storing, complete`, and the
final event is `(complete, 100)`. -/
theorem monotonic_indexing_progress (env : IndexEnv) (store : List QPoint)
    (fp t : String) (md : List (String × String)) (now nowP : String)
    (cs : List (String × List (String × String)))
    (hraw : env.rawChunks = .ok cs) (hne : cs ≠ [])
    (hemb : env.embedOk = true) (hsto : env.storeOk = true) :
    List.Chain' progLe ((indexDocument env store fp t md now nowP).1)
    ∧ ((indexDocument env store fp t md now nowP).1).getLast? = some ("complete", 100) := by
  rw [indexDocument_success_events env store fp t md now nowP cs hraw hne hemb hsto]
  have hB : 1 ≤ (cs.length + 49) / 50 := by
    have : cs.length ≠ 0 := by simpa using hne
    omega
  exact ⟨successEvents_chain _ hB, successEvents_last _⟩

/-- Witness for `monotonic_indexing_progress` on a one-chunk run. -/
theorem monotonic_indexing_progress_witness :
    List.Chain' progLe ((indexDocument
        { checkFails := false, rawChunks := .ok [("hello", [])],
          embedOk := true, storeOk := true }
        ([] : List QPoint) "doc.txt" "t1" [] "n" "p").1)
    ∧ ((indexDocument
        { checkFails := false, rawChunks := .ok [("hello", [])],
          embedOk := true, storeOk := true }
        ([] : List QPoint) "doc.txt" "t1" [] "n" "p").1).getLast?
      = some ("complete", 100) :=
  monotonic_indexing_progress _ _ "doc.txt" "t1" [] "n" "p" [("hello", [])]
    rfl (by decide) rfl rfl

end Widget

namespace Widget

/-! ### Query service cache (`src/server/services/queryService.js`) -/

/-- `MIN_QUESTION_LENGTH` -/
def MIN_QUESTION_LENGTH : Nat := 3

/-- `MAX_QUESTION_LENGTH` -/
def MAX_QUESTION_LENGTH : Nat := 1000

/-- `validateQuery`: non-empty tenant and question, trimmed question length
within bounds; returns the trimmed question. -/
def validateQuery (tenantId question : String) : Except String String :=
  if tenantId = "" then .error "Invalid tenant ID"
  else if question = "" then .error "Invalid question"
  else
    let t := jsTrim question
    if t.toList.length < MIN_QUESTION_LENGTH then
      .error "Question is too short. Minimum length is 3 characters."
    else if MAX_QUESTION_LENGTH < t.toList.length then
      .error "Question is too long. Maximum length is 1000 characters."
    else .ok t

/-- `getCacheKey`: the digest of
`tenantId : normalized-question : JSON.stringify(options)`.  The SHA-256
implementation is the external `crypto` library, abstracted as `hash`;
`optsS` stands for the serialized options object. -/
def getCacheKey (hash : String → String) (tenantId question optsS : String) : String :=
  hash (tenantId ++ ":" ++ toLowerCase (jsTrim question) ++ ":" ++ optsS)

/-- The response envelope of `query`: the pipeline result spread together
with the `cached` flag, the `latency` field (absent on a cache hit) and the
`timestamp`. -/
structure QResp (α : Type) where
  result : α
  cached : Bool
  latency : Option Nat
  timestamp : Nat
deriving DecidableEq

/-- One `query(tenantId, question, options)` call: validate, consult the
cache unless streaming, otherwise run the pipeline (abstracted as its
outcome `pipeline`), cache a non-streaming success, and wrap the response.
`elapsed` stands for the measured latency and `now` for the timestamp.
Returns the cache after the call and the outcome. -/
def queryOnce {α : Type} (hash : String → String) (pipeline : Except String α)
    (cache : List (String × α)) (tenantId question : String) (stream : Bool)
    (optsS : String) (elapsed now : Nat) :
    List (String × α) × Except String (QResp α) :=
  match validateQuery tenantId question with
  | .error e => (cache, .error e)
  | .ok vq =>
    if stream then
      match pipeline with
      | .error e => (cache, .error e)
      | .ok r =>
          (cache, .ok { result := r, cached := false, latency := some elapsed, timestamp := now })
    else
      let key := getCacheKey hash tenantId vq optsS
      match cache.lookup key with
      | some c =>
          (cache, .ok { result := c, cached := true, latency := none, timestamp := now })
      | none =>
          match pipeline with
          | .error e => (cache, .error e)
          | .ok r =>
              ((key, r) :: cache,
               .ok { result := r, cached := false, latency := some elapsed, timestamp := now })

instance {e a : Type} [DecidableEq e] [DecidableEq a] : DecidableEq (Except e a) := fun x y =>
  match x, y with
  | .ok v, .ok w =>
      if h : v = w then isTrue (by rw [h]) else isFalse (fun hc => h (Except.ok.inj hc))
  | .ok _, .error _ => isFalse (fun hc => Except.noConfusion hc)
  | .error _, .ok _ => isFalse (fun hc => Except.noConfusion hc)
  | .error v, .error w =>
      if h : v = w then isTrue (by rw [h]) else isFalse (fun hc => h (Except.error.inj hc))

/-- A stand-in digest for concrete scenarios (any function may play the
role of the external SHA-256). -/
def idHash : String → String := fun s => s

/-- First call of the cache scenario. -/
def c7Run1 := queryOnce idHash (.ok "answer-object") ([] : List (String × String))
  "t1" "What is X" false "opts-json" 5 100

/-- Second identical call, on the cache left by the first. -/
def c7Run2 := queryOnce idHash (.ok "answer-object") c7Run1.1
  "t1" "What is X" false "opts-json" 7 200

/-- The response of a successful call (placeholder on error). -/
def respOf (e : Except String (QResp String)) : QResp String :=
  match e with
  | .ok r => r
  | .error _ => { result := "", cached := false, latency := none, timestamp := 0 }

/-- C7 counterexample: the second identical call hits the cache and
returns the same pipeline result with `cached:true`, but the two responses
are not equal modulo only the `timestamp`/`cached` fields: the first
carries `latency` and the cache hit omits it. -/
theorem query_cache_counterexample :
    c7Run1.2 = .ok { result := "answer-object", cached := false,
                     latency := some 5, timestamp := 100 }
    ∧ c7Run2.2 = .ok { result := "answer-object", cached := true,
                       latency := none, timestamp := 200 }
    ∧ (respOf c7Run1.2).result = (respOf c7Run2.2).result
    ∧ (respOf c7Run1.2).latency ≠ (respOf c7Run2.2).latency := by
  refine ⟨by decide, by decide, by decide, by decide⟩

/-- C7 (amended): the cache key is the digest of the tenant, the trimmed
lowercased question and the serialized options; for two identical
non-streaming calls with no intervening writes the second returns
`cached:true` with the same pipeline result, differing from the first
response only in the `timestamp`, `cached` and `latency` fields; a
streaming call leaves the cache untouched. -/
theorem query_cache_correctness {α : Type} (hash : String → String)
    (r : α) (cache : List (String × α)) (t q optsS vq : String)
    (elapsed1 now1 elapsed2 now2 : Nat)
    (hval : validateQuery t q = .ok vq)
    (hmiss : cache.lookup (getCacheKey hash t vq optsS) = none) :
    (getCacheKey hash t vq optsS
      = hash (t ++ ":" ++ toLowerCase (jsTrim vq) ++ ":" ++ optsS))
    ∧ (queryOnce hash (.ok r) cache t q false optsS elapsed1 now1).2
      = .ok { result := r, cached := false, latency := some elapsed1, timestamp := now1 }
    ∧ (queryOnce hash (.ok r) (queryOnce hash (.ok r) cache t q false optsS elapsed1 now1).1
        t q false optsS elapsed2 now2).2
      = .ok { result := r, cached := true, latency := none, timestamp := now2 }
    ∧ (queryOnce hash (.ok r) cache t q true optsS elapsed1 now1).1 = cache := by
  refine ⟨rfl, ?_, ?_, ?_⟩
  · unfold queryOnce
    rw [hval]
    simp only [Bool.false_eq_true, if_false]
    rw [hmiss]
  · unfold queryOnce
    rw [hval]
    simp only [Bool.false_eq_true, if_false]
    rw [hmiss]
    simp [List.lookup]
  · unfold queryOnce
    rw [hval]
    simp

/-- Witness for `query_cache_correctness` at the concrete scenario. -/
theorem query_cache_correctness_witness :
    (getCacheKey idHash "t1" "What is X" "opts-json"
      = idHash ("t1" ++ ":" ++ toLowerCase (jsTrim "What is X") ++ ":" ++ "opts-json"))
    ∧ (queryOnce idHash (.ok "answer-object") ([] : List (String × String))
        "t1" "What is X" false "opts-json" 5 100).2
      = .ok { result := "answer-object", cached := false, latency := some 5, timestamp := 100 }
    ∧ (queryOnce idHash (.ok "answer-object")
        (queryOnce idHash (.ok "answer-object") ([] : List (String × String))
          "t1" "What is X" false "opts-json" 5 100).1
        "t1" "What is X" false "opts-json" 7 200).2
      = .ok { result := "answer-object", cached := true, latency := none, timestamp := 200 }
    ∧ (queryOnce idHash (.ok "answer-object") ([] : List (String × String))
        "t1" "What is X" true "opts-json" 5 100).1 = ([] : List (String × String)) :=
  query_cache_correctness idHash "answer-object" [] "t1" "What is X" "opts-json"
    "What is X" 5 100 7 200 (by decide) (by decide)

end Widget

namespace Widget

/-! ### Conversation core (`src/server/services/chatService.js`,
`processMessage`) -/

/-- An agent as the selector returns it. -/
structure AgentRec where
  id : Nat
  name : String
  email : String
deriving DecidableEq

/-- The room row, as far as the turn logic reads it. -/
structure RoomRec where
  assignedAgentId : Option Nat
deriving DecidableEq

/-- Observable effects of a turn. -/
inductive Ev where
  | savedMsg (sender content : String)
  | emitNew (content : String)
  | typing (who : String) (isOn : Bool)
  | bridged (content : String)
  | llmQueried
  | notifiedHandover (agentEmail : String)
deriving DecidableEq

/-- The query-core response as the turn reads it.  The `answer`-object
sub-case of the extraction cascade is folded into the string field. -/
structure RagResponse where
  text : Option String
  answer : Option String
  response : Option String
  contentF : Option String
  sources : List String
  intent : Option String
  confidence : Option ℚ
  extractedEntities : Option (List (String × String))
deriving DecidableEq

/-- Truthiness of an optional string field. -/
def truthyO (o : Option String) : Bool :=
  match o with
  | some s => s != ""
  | none => false

/-- Step 7 of the turn: try `text`, `answer`, `response`, `content` in
order, else the fixed apology; the result is trimmed. -/
def answerTextOf (r : RagResponse) : String :=
  let raw :=
    if truthyO r.text then r.text.getD ""
    else if truthyO r.answer then r.answer.getD ""
    else if truthyO r.response then r.response.getD ""
    else if truthyO r.contentF then r.contentF.getD ""
    else "I apologize, but I could not generate a proper response."
  jsTrim raw

/-- The outcomes of the awaited calls of one turn, in source order.  Each
field is the result the corresponding external call would produce. -/
structure ChatEnv where
  saveCustomer : Except String Nat
  history : Except String (List ChatMsg)
  entities0 : Except String (List (String × String))
  room : Except String (Option RoomRec)
  client : Except String Unit
  updCtxAssisted : Except String Unit
  pickAgent : Except String (Option AgentRec)
  roomUpdAssign : Except String Unit
  updEntitiesAssign : Except String Unit
  saveAssignMsg : Except String Nat
  saveReminder : Except String Nat
  savePleaseWait : Except String Nat
  qsInit : Except String Unit
  extract : Except String (List (String × String))
  updCtxExtract : Except String Unit
  roomUpdIdentity : Except String Unit
  updCtx5b : Except String Unit
  queryRes : Except String RagResponse
  saveAi : Except String Nat
  updCtxMergeResp : Except String Unit
  saveApology : Except String Nat

/-- A turn returns either a handover record or the answered messages. -/
inductive POutcome where
  | handover (reason : String) (assignedAgent : Option AgentRec)
  | answered (answerText : String) (sources : List String)
deriving DecidableEq

/-- The system message persisted by `assignAgent`. -/
def assignText (a : AgentRec) : String :=
  "You are now connected with " ++ a.name ++ ". How can they help you today?"

/-- The reminder persisted when an agent is already assigned. -/
def reminderText (ents : List (String × String)) : String :=
  let agentName :=
    if truthy ents "assignedAgentName" then (ents.lookup "assignedAgentName").getD ""
    else "your assigned agent"
  "You are currently being assisted by " ++ agentName ++ ". How can they help you today?"

/-- The system message persisted when no agent qualifies. -/
def pleaseWaitText : String :=
  "All our agents are currently busy. Please wait and someone will be with you shortly."

/-- The apology persisted by the turn's catch block. -/
def apologyText : String :=
  "I apologize, but I encountered an error processing your request. Please try again."

/-- `assignAgent`: update the room, persist the assignment entities, save
and emit the connection message, notify the external bridge. -/
def assignAgentM (env : ChatEnv) (a : AgentRec) : List Ev × Except String Unit :=
  match env.roomUpdAssign with
  | .error e => ([], .error e)
  | .ok _ =>
  match env.updEntitiesAssign with
  | .error e => ([], .error e)
  | .ok _ =>
  match env.saveAssignMsg with
  | .error e => ([], .error e)
  | .ok _ =>
      ([.savedMsg "system" (assignText a), .emitNew (assignText a),
        .notifiedHandover a.email], .ok ())

/-- Steps 4-9 of the turn (the `try` block): entity extraction, merge and
room mirroring, the pending-handover unlock, the LLM query, answer
extraction, and the `ai` message.  `ents` is the collected-entities map at
entry. -/
def ragFlow (env : ChatEnv) (ents : List (String × String)) :
    List Ev × Except String POutcome :=
  match env.qsInit with
  | .error e => ([], .error e)
  | .ok _ =>
  match env.extract with
  | .error e => ([], .error e)
  | .ok extracted =>
    let ents1 := if extracted.isEmpty then ents else mergeKV ents extracted
    let step5 : Except String Unit :=
      if extracted.isEmpty then .ok ()
      else
        match env.updCtxExtract with
        | .error e => .error e
        | .ok _ =>
            if truthy extracted "email" || truthy extracted "name" then
              env.roomUpdIdentity
            else .ok ()
    match step5 with
    | .error e => ([], .error e)
    | .ok _ =>
      let queryPart : List Ev × Except String POutcome :=
        match env.queryRes with
        | .error e => ([.llmQueried], .error e)
        | .ok resp =>
            let ansText := answerTextOf resp
            match env.saveAi with
            | .error e => ([.llmQueried, .typing "ai" false], .error e)
            | .ok _ =>
                let evs1 := [.llmQueried, .typing "ai" false,
                  .savedMsg "ai" ansText, .emitNew ansText, .bridged ansText]
                match resp.extractedEntities with
                | some _ =>
                    match env.updCtxMergeResp with
                    | .error e => (evs1, .error e)
                    | .ok _ => (evs1, .ok (.answered ansText resp.sources))
                | none => (evs1, .ok (.answered ansText resp.sources))
      if truthy ents1 "pendingHandover"
          && (truthy extracted "email" || truthy extracted "name"
              || truthy extracted "phone") then
        let reason := (ents1.lookup "handoverReason").getD ""
        match env.updCtx5b with
        | .error e => ([], .error e)
        | .ok _ =>
        match env.pickAgent with
        | .error e => ([], .error e)
        | .ok (some a) =>
            match assignAgentM env a with
            | (evs, .error e) => (evs, .error e)
            | (evs, .ok _) => (evs ++ [.typing "ai" false], .ok (.handover reason (some a)))
        | .ok none => queryPart
      else queryPart

/-- The events of step 1-2 of a turn whose customer save succeeded. -/
def preEvents (content : String) : List Ev :=
  [.savedMsg "customer" content, .emitNew content, .bridged content, .typing "ai" true]

/-- `processMessage(clientId, roomId, content)`: persist and fan out the
customer message, load history/context/room/client, run handover
detection, branch, and on the fall-through path run the RAG flow inside
the catch that persists the apology. -/
def processMessage (env : ChatEnv) (content : String) : List Ev × Except String POutcome :=
  match env.saveCustomer with
  | .error e => ([], .error e)
  | .ok _ =>
    let pre0 : List Ev := [.savedMsg "customer" content, .emitNew content]
    match env.history with
    | .error e => (pre0, .error e)
    | .ok hist =>
    match env.entities0 with
    | .error e => (pre0, .error e)
    | .ok ents =>
    match env.room with
    | .error e => (pre0, .error e)
    | .ok room =>
    match env.client with
    | .error e => (pre0, .error e)
    | .ok _ =>
      let pre := preEvents content
      let withRag : List (String × String) → List Ev × Except String POutcome :=
        fun ents1 =>
          match ragFlow env ents1 with
          | (evs, .ok r) => (pre ++ evs, .ok r)
          | (evs, .error e) =>
              match env.saveApology with
              | .ok _ => (pre ++ evs ++ [.typing "ai" false,
                  .savedMsg "ai" apologyText, .emitNew apologyText], .error e)
              | .error e2 => (pre ++ evs ++ [.typing "ai" false], .error e2)
      match analyzeHandoverNeed content hist
          { collectedEntities := ents, aiResponses := none } with
      | some v =>
        if v.shouldHandover then
          if v.immediate then
            if (room.bind (fun r => r.assignedAgentId)).isSome then
              match env.saveReminder with
              | .error e => (pre, .error e)
              | .ok _ =>
                  (pre ++ [.savedMsg "system" (reminderText ents),
                    .emitNew (reminderText ents), .typing "ai" false],
                   .ok (.handover v.reason none))
            else
              match env.pickAgent with
              | .error e => (pre, .error e)
              | .ok (some a) =>
                  match assignAgentM env a with
                  | (evs, .error e) => (pre ++ evs, .error e)
                  | (evs, .ok _) =>
                      (pre ++ evs ++ [.typing "ai" false],
                       .ok (.handover v.reason (some a)))
              | .ok none =>
                  match env.savePleaseWait with
                  | .error e => (pre, .error e)
                  | .ok _ =>
                      (pre ++ [.savedMsg "system" pleaseWaitText, .typing "ai" false],
                       .ok (.handover v.reason none))
          else
            match env.updCtxAssisted with
            | .error e => (pre, .error e)
            | .ok _ =>
                withRag (mergeKV ents
                  [("pendingHandover", "true"), ("handoverReason", v.reason)])
        else withRag ents
      | none => withRag ents

end Widget

namespace Widget

/-- A turn environment in which every external call succeeds. -/
def okEnv (hist : List ChatMsg) (ents : List (String × String))
    (room : Option RoomRec) (agentOpt : Option AgentRec)
    (qres : Except String RagResponse) : ChatEnv :=
  { saveCustomer := .ok 1, history := .ok hist, entities0 := .ok ents,
    room := .ok room, client := .ok (), updCtxAssisted := .ok (),
    pickAgent := .ok agentOpt, roomUpdAssign := .ok (),
    updEntitiesAssign := .ok (), saveAssignMsg := .ok 2, saveReminder := .ok 3,
    savePleaseWait := .ok 4, qsInit := .ok (), extract := .ok [],
    updCtxExtract := .ok (), roomUpdIdentity := .ok (), updCtx5b := .ok (),
    queryRes := qres, saveAi := .ok 5, updCtxMergeResp := .ok (),
    saveApology := .ok 6 }

/-- C3: whenever the detector returns an immediate verdict, the LLM is
never queried; with an agent already assigned a system reminder is
persisted and the turn returns a handover with no newly assigned agent;
otherwise the turn assigns the selected agent when one exists, and
persists the please-wait system message when none does. -/
theorem immediate_handover_turn (hist : List ChatMsg) (ents : List (String × String))
    (room : Option RoomRec) (agentOpt : Option AgentRec)
    (qres : Except String RagResponse) (content : String) (v : HandoverResult)
    (hv : analyzeHandoverNeed content hist
        { collectedEntities := ents, aiResponses := none } = some v)
    (hsh : v.shouldHandover = true) (him : v.immediate = true) :
    Ev.llmQueried ∉ (processMessage (okEnv hist ents room agentOpt qres) content).1
    ∧ ((room.bind (fun r => r.assignedAgentId)).isSome = true →
        (processMessage (okEnv hist ents room agentOpt qres) content).2
          = .ok (.handover v.reason none)
        ∧ Ev.savedMsg "system" (reminderText ents)
            ∈ (processMessage (okEnv hist ents room agentOpt qres) content).1)
    ∧ (∀ a, (room.bind (fun r => r.assignedAgentId)).isSome = false → agentOpt = some a →
        (processMessage (okEnv hist ents room agentOpt qres) content).2
          = .ok (.handover v.reason (some a))
        ∧ Ev.savedMsg "system" (assignText a)
            ∈ (processMessage (okEnv hist ents room agentOpt qres) content).1
        ∧ Ev.notifiedHandover a.email
            ∈ (processMessage (okEnv hist ents room agentOpt qres) content).1)
    ∧ ((room.bind (fun r => r.assignedAgentId)).isSome = false → agentOpt = none →
        (processMessage (okEnv hist ents room agentOpt qres) content).2
          = .ok (.handover v.reason none)
        ∧ Ev.savedMsg "system" pleaseWaitText
            ∈ (processMessage (okEnv hist ents room agentOpt qres) content).1) := by
  have hred : processMessage (okEnv hist ents room agentOpt qres) content
      = (if (room.bind (fun r => r.assignedAgentId)).isSome then
           (preEvents content ++ [.savedMsg "system" (reminderText ents),
             .emitNew (reminderText ents), .typing "ai" false],
            .ok (.handover v.reason none))
         else match agentOpt with
           | some a => (preEvents content ++ [.savedMsg "system" (assignText a),
               .emitNew (assignText a), .notifiedHandover a.email, .typing "ai" false],
              .ok (.handover v.reason (some a)))
           | none => (preEvents content ++ [.savedMsg "system" pleaseWaitText,
               .typing "ai" false],
              .ok (.handover v.reason none))) := by
    unfold processMessage okEnv
    simp only [hv, hsh, him, if_true]
    cases hassigned : (room.bind (fun r => r.assignedAgentId)).isSome with
    | false =>
        simp only [Bool.false_eq_true, if_false]
        cases agentOpt with
        | some a => simp [assignAgentM]
        | none => rfl
    | true => simp only [if_true]
  rw [hred]
  refine ⟨?_, ?_, ?_, ?_⟩
  · cases hassigned : (room.bind (fun r => r.assignedAgentId)).isSome with
    | false =>
        simp only [Bool.false_eq_true, if_false]
        cases agentOpt with
        | some a => simp [preEvents]
        | none => simp [preEvents]
    | true =>
        simp only [if_true]
        simp [preEvents]
  · intro h
    simp only [h, if_true]
    simp [preEvents]
  · intro a h ha
    simp only [h, Bool.false_eq_true, if_false, ha]
    simp [preEvents]
  · intro h hn
    simp only [h, Bool.false_eq_true, if_false, hn]
    simp [preEvents]

end Widget

namespace Widget

/-- Room with no assigned agent, for the witness turn. -/
def c3Room : Option RoomRec := some { assignedAgentId := none }

/-- The selected agent of the witness turn. -/
def c3Agent : Option AgentRec := some { id := 1, name := "Ann", email := "ann@x.co" }

/-- The immediate verdict for the message `emergency`. -/
def c3Verdict : HandoverResult :=
  { shouldHandover := true, immediate := true, reason := "explicit_request",
    confidence := 1, message := "User explicitly requested an agent" }

/-- The query outcome of the witness turn (never reached). -/
def c3Q : Except String RagResponse := .error "unused"

/-- Witness for `immediate_handover_turn` on the message `emergency`. -/
theorem immediate_handover_turn_witness :
    Ev.llmQueried ∉ (processMessage (okEnv [] [] c3Room c3Agent c3Q) "emergency").1
    ∧ ((c3Room.bind (fun r => r.assignedAgentId)).isSome = true →
        (processMessage (okEnv [] [] c3Room c3Agent c3Q) "emergency").2
          = .ok (.handover c3Verdict.reason none)
        ∧ Ev.savedMsg "system" (reminderText [])
            ∈ (processMessage (okEnv [] [] c3Room c3Agent c3Q) "emergency").1)
    ∧ (∀ a, (c3Room.bind (fun r => r.assignedAgentId)).isSome = false → c3Agent = some a →
        (processMessage (okEnv [] [] c3Room c3Agent c3Q) "emergency").2
          = .ok (.handover c3Verdict.reason (some a))
        ∧ Ev.savedMsg "system" (assignText a)
            ∈ (processMessage (okEnv [] [] c3Room c3Agent c3Q) "emergency").1
        ∧ Ev.notifiedHandover a.email
            ∈ (processMessage (okEnv [] [] c3Room c3Agent c3Q) "emergency").1)
    ∧ ((c3Room.bind (fun r => r.assignedAgentId)).isSome = false → c3Agent = none →
        (processMessage (okEnv [] [] c3Room c3Agent c3Q) "emergency").2
          = .ok (.handover c3Verdict.reason none)
        ∧ Ev.savedMsg "system" pleaseWaitText
            ∈ (processMessage (okEnv [] [] c3Room c3Agent c3Q) "emergency").1) :=
  immediate_handover_turn [] [] c3Room c3Agent c3Q "emergency" c3Verdict
    (by decide) rfl rfl

/-- The turn environment whose history fetch fails after the customer
message was persisted. -/
def c6Env : ChatEnv :=
  { okEnv [] [] none none (.error "unused") with history := .error "db_down" }

/-- C6 counterexample: when the history fetch of step 2 fails — after the
customer message was persisted — the turn rethrows without persisting an
`ai` apology and without emitting `typing(ai,false)`. -/
theorem turn_error_policy_counterexample :
    processMessage c6Env "where is my order"
      = ([.savedMsg "customer" "where is my order",
          .emitNew "where is my order"], .error "db_down")
    ∧ Ev.savedMsg "ai" apologyText ∉ (processMessage c6Env "where is my order").1
    ∧ Ev.typing "ai" false ∉ (processMessage c6Env "where is my order").1 := by
  refine ⟨by decide, by decide, by decide⟩

/-- The collected-entities map with which the RAG flow is entered, when the
handover branch falls through to it. -/
def entsAfterBranch (content : String) (hist : List ChatMsg)
    (ents : List (String × String)) : Option (List (String × String)) :=
  match analyzeHandoverNeed content hist
      { collectedEntities := ents, aiResponses := none } with
  | none => some ents
  | some v =>
      if v.shouldHandover then
        if v.immediate then none
        else some (mergeKV ents [("pendingHandover", "true"), ("handoverReason", v.reason)])
      else some ents

/-- C6 (amended): every failure inside the RAG flow (the `try` block of
steps 4-9) results — provided the apology save itself succeeds — in the
`ai` apology being persisted and emitted after `typing(ai,false)`, with
the original error rethrown; all events of the turn so far stay in the
trace (nothing is rolled back). -/
theorem turn_error_policy_amended (env : ChatEnv) (content : String)
    (n : Nat) (hist : List ChatMsg) (ents ents1 : List (String × String))
    (room : Option RoomRec) (evs : List Ev) (e : String) (m : Nat)
    (hsc : env.saveCustomer = .ok n) (hh : env.history = .ok hist)
    (he : env.entities0 = .ok ents) (hr : env.room = .ok room)
    (hc : env.client = .ok ()) (hca : env.updCtxAssisted = .ok ())
    (hreach : entsAfterBranch content hist ents = some ents1)
    (hrag : ragFlow env ents1 = (evs, .error e))
    (hap : env.saveApology = .ok m) :
    processMessage env content
      = (preEvents content ++ evs ++ [.typing "ai" false,
          .savedMsg "ai" apologyText, .emitNew apologyText], .error e) := by
  unfold processMessage
  simp only [hsc, hh, he, hr, hc]
  unfold entsAfterBranch at hreach
  cases hv : analyzeHandoverNeed content hist
      { collectedEntities := ents, aiResponses := none } with
  | none =>
      simp only [hv] at hreach
      obtain rfl : ents = ents1 := Option.some.inj hreach
      simp only [hrag, hap]
  | some v =>
      simp only [hv] at hreach
      cases hshv : v.shouldHandover with
      | false =>
          simp only [hshv, Bool.false_eq_true, if_false] at hreach
          obtain rfl : ents = ents1 := Option.some.inj hreach
          simp only [hshv, Bool.false_eq_true, if_false, hrag, hap]
      | true =>
          simp only [hshv, if_true] at hreach
          cases himv : v.immediate with
          | true => simp [himv] at hreach
          | false =>
              simp only [himv, Bool.false_eq_true, if_false] at hreach
              obtain rfl : mergeKV ents
                  [("pendingHandover", "true"), ("handoverReason", v.reason)] = ents1 :=
                Option.some.inj hreach
              simp only [hshv, himv, if_true, Bool.false_eq_true, if_false, hca, hrag, hap]

/-- Witness for `turn_error_policy_amended`: the LLM query fails. -/
theorem turn_error_policy_amended_witness :
    processMessage { okEnv [] [] none none (.error "llm_down") with saveApology := .ok 6 }
        "where is my order"
      = (preEvents "where is my order" ++ [Ev.llmQueried] ++ [.typing "ai" false,
          .savedMsg "ai" apologyText, .emitNew apologyText], .error "llm_down") :=
  turn_error_policy_amended _ "where is my order" 1 [] [] [] none [Ev.llmQueried]
    "llm_down" 6 rfl rfl rfl rfl rfl rfl (by decide) (by decide) rfl

end Widget
